import Mathlib

/-!
Verification of the payment/withdrawal reconciliation core of the
electrician-api backend, as a shallow embedding in Lean 4.

Money amounts are modelled as rationals (the database stores DECIMAL(10,2)
values); `Number(x.toFixed(2))` from the source is modelled by `round2`.
Database tables are lists of records; Sequelize `update ... where` is a
`List.map` guarded by the `where` predicate, `create` appends a row, and a
rolled-back transaction leaves the database unchanged.  External gateway
calls are passed in as explicit oracle values (success payload or thrown
error), and timestamps as an explicit `now` parameter.
-/

namespace ElectricianApi

/-- `Number(x.toFixed(2))`: rounding to two decimal places. -/
def round2 (q : ℚ) : ℚ := ((round (q * 100) : ℤ) : ℚ) / 100

/-- An amount representable with two decimal places (a DECIMAL(10,2) value). -/
def TwoDP (q : ℚ) : Prop := ((q * 100 : ℚ)).den = 1

instance : DecidablePred TwoDP := fun _ => inferInstanceAs (Decidable (_ = 1))

/-- Withdrawal status enum: 'pending' | 'processing' | 'success' | 'failed' | 'cancelled'. -/
inductive WStatus
  | pending | processing | success | failed | cancelled
  deriving DecidableEq

/-- Payment status enum: 'pending' | 'success' | 'failed' | 'expired'. -/
inductive PStatus
  | pending | success | failed | expired
  deriving DecidableEq

/-- Payment type enum: 'prepay' | 'repair'. -/
inductive PayType
  | prepay | repair
  deriving DecidableEq

/-- Order status values relevant to the payment flows. -/
inductive OStatus
  | pending_payment | pending | accepted | pending_repair_payment
  | in_progress | completed | other
  deriving DecidableEq

/-- A row of the Orders table (the fields the core reads or writes). -/
structure Order where
  id : Nat
  order_no : String
  user_id : Nat
  electrician_id : Option Nat
  status : OStatus
  final_amount : ℚ
  prepaid_at : Option Nat
  repair_paid_at : Option Nat
  deriving DecidableEq

/-- A row of the Reviews table. -/
structure Review where
  order_id : Nat
  rating : Nat
  deriving DecidableEq

/-- A row of the Payments table. -/
structure Payment where
  id : Nat
  order_id : Nat
  user_id : Nat
  out_trade_no : String
  amount : ℚ
  payment_method : String
  type : PayType
  status : PStatus
  transaction_id : Option String
  paid_at : Option Nat
  failed_reason : Option String
  deriving DecidableEq

/-- A row of the Withdrawals table. -/
structure Withdrawal where
  id : Nat
  electrician_id : Nat
  amount : ℚ
  status : WStatus
  out_batch_no : String
  transfer_bill_no : Option String
  openid : String
  real_name : Option String
  total_income_snapshot : ℚ
  withdrawn_snapshot : ℚ
  available_balance_snapshot : ℚ
  fail_reason : Option String
  completed_at : Option Nat
  package_info : Option String
  deriving DecidableEq

/-- A row of the Users table (payout identity fields only). -/
structure User where
  id : Nat
  openid : Option String
  deriving DecidableEq

/-- A row of the ElectricianCertifications table (payout compliance fields). -/
structure Certification where
  user_id : Nat
  status : String
  real_name : Option String
  deriving DecidableEq

/-- A row of the OrderStatusLogs table. -/
structure StatusLog where
  order_id : Nat
  from_status : Option OStatus
  to_status : OStatus
  operator_id : Nat
  operator_type : String
  remark : String
  deriving DecidableEq

/-- A row of the Messages table (user-facing notification). -/
structure Message where
  user_id : Nat
  title : String
  content : String
  related_id : Nat
  deriving DecidableEq

/-- The ledger store and its collaborator tables. -/
structure DB where
  orders : List Order
  reviews : List Review
  payments : List Payment
  withdrawals : List Withdrawal
  users : List User
  certifications : List Certification
  statusLogs : List StatusLog
  messages : List Message
  deriving DecidableEq

/-- Sum of a list of amounts (SQL `SUM(amount)`, with `|| 0` for the empty case). -/
def sumAmounts (l : List ℚ) : ℚ := l.foldr (· + ·) 0

/-- The derived balance record returned by `calculateBalance`. -/
structure Balance where
  totalIncome : ℚ
  withdrawnAmount : ℚ
  lockedAmount : ℚ
  availableBalance : ℚ
  deriving DecidableEq

/-- Order ids of this electrician's completed orders that carry a 5-star
review (the INNER JOIN in `calculateBalance`). -/
def eligibleOrderIds (db : DB) (eid : Nat) : List Nat :=
  ((db.orders.filter (fun o =>
      decide (o.electrician_id = some eid ∧ o.status = OStatus.completed ∧
        db.reviews.any (fun r => decide (r.order_id = o.id ∧ r.rating = 5))))).map
    (fun o => o.id))

/-- `calculateBalance` (electricianController, fixed revision): totalIncome
from successful prepay/repair Payments of eligible orders; withdrawnAmount
from Withdrawals with status success; lockedAmount from Withdrawals with
status processing; availableBalance = totalIncome − withdrawn − locked,
rounded to two decimals. -/
def calculateBalance (db : DB) (eid : Nat) : Balance :=
  let orderIds := eligibleOrderIds db eid
  let totalIncome := sumAmounts ((db.payments.filter (fun p =>
      decide (p.order_id ∈ orderIds ∧ p.status = PStatus.success ∧
        (p.type = PayType.prepay ∨ p.type = PayType.repair)))).map
    (fun p => p.amount))
  let withdrawn := sumAmounts ((db.withdrawals.filter (fun w =>
      decide (w.electrician_id = eid ∧ w.status = WStatus.success))).map
    (fun w => w.amount))
  let locked := sumAmounts ((db.withdrawals.filter (fun w =>
      decide (w.electrician_id = eid ∧ w.status = WStatus.processing))).map
    (fun w => w.amount))
  { totalIncome := round2 totalIncome
    withdrawnAmount := round2 withdrawn
    lockedAmount := round2 locked
    availableBalance := round2 (totalIncome - withdrawn - locked) }

/-! ### Generic table updates -/

/-- `Withdrawal.update(fields, { where: p })`: apply `f` to every row matching `p`. -/
def updWWhere (db : DB) (p : Withdrawal → Bool) (f : Withdrawal → Withdrawal) : DB :=
  { db with withdrawals := db.withdrawals.map (fun w => if p w then f w else w) }

/-- `Payment.update(fields, { where: { out_trade_no } })`. -/
def updPWhere (db : DB) (p : Payment → Bool) (f : Payment → Payment) : DB :=
  { db with payments := db.payments.map (fun q => if p q then f q else q) }

/-- `Order.update(fields, { where: { id } })`. -/
def updOWhere (db : DB) (p : Order → Bool) (f : Order → Order) : DB :=
  { db with orders := db.orders.map (fun o => if p o then f o else o) }

/-- Append an OrderStatusLog row (`OrderStatusLog.create`). -/
def addLog (db : DB) (l : StatusLog) : DB :=
  { db with statusLogs := db.statusLogs ++ [l] }

/-- Append a Message row (`Message.create`). -/
def addMsg (db : DB) (m : Message) : DB :=
  { db with messages := db.messages ++ [m] }

/-- Auto-increment id for a newly inserted Withdrawal row. -/
def freshWId (db : DB) : Nat :=
  (db.withdrawals.foldr (fun w m => max w.id m) 0) + 1

/-! ### The withdraw operation (`exports.withdraw`, electricianController) -/

/-- Success payload of the gateway `createTransferBill` call. -/
structure TransferOk where
  transfer_bill_no : Option String
  out_bill_no : String
  package_info : Option String
  state : Option String
  deriving DecidableEq

/-- An error thrown by a gateway call (HTTP status / gateway code / message). -/
structure ApiErr where
  status : Option Nat
  code : Option String
  message : String
  deriving DecidableEq

/-- Outcome of the gateway transfer call, supplied as an oracle. -/
inductive TransferResult
  | ok (r : TransferOk)
  | err (e : ApiErr)
  deriving DecidableEq

/-- HTTP response as seen by the caller of the withdraw endpoint. -/
structure HResp where
  httpStatus : Nat
  success : Bool
  code : Option String
  message : String
  deriving DecidableEq

/-- Result of one `withdraw` call: the database afterwards, the response,
and whether the gateway transfer API was invoked. -/
structure WithdrawResult where
  db : DB
  resp : HResp
  gatewayCalled : Bool
  deriving DecidableEq

/-- Post-commit phase of `exports.withdraw`: the `pending` row is already
committed; call the gateway and move the row to `processing` on success or to
`failed` on a thrown error, mapping rate-limit errors (HTTP 429 or code
FREQUENCY_LIMIT_EXCEED) to a 429 response with code RATE_LIMIT_EXCEEDED and
any other error to a generic 500. -/
def withdrawCommit (db : DB) (row : Withdrawal) (gw : TransferResult) :
    WithdrawResult :=
  let db1 : DB := { db with withdrawals := db.withdrawals ++ [row] }
  match gw with
  | TransferResult.ok r =>
      let db2 := updWWhere db1 (fun w => decide (w.id = row.id))
        (fun w => { w with
          status := WStatus.processing
          transfer_bill_no := some (r.transfer_bill_no.getD r.out_bill_no)
          package_info := r.package_info })
      ⟨db2, ⟨200, true, none, "提现申请已提交，请确认收款"⟩, true⟩
  | TransferResult.err e =>
      if e.status = some 429 ∨ e.code = some "FREQUENCY_LIMIT_EXCEED" then
        let db2 := updWWhere db1 (fun w => decide (w.id = row.id))
          (fun w => { w with
            status := WStatus.failed
            fail_reason := some "请求过于频繁，请稍后再试" })
        ⟨db2, ⟨429, false, some "RATE_LIMIT_EXCEEDED",
          "提现请求过于频繁，请5分钟后再试"⟩, true⟩
      else
        let db2 := updWWhere db1 (fun w => decide (w.id = row.id))
          (fun w => { w with
            status := WStatus.failed
            fail_reason := some (if e.message = "" then
              "微信转账接口调用失败" else e.message) })
        ⟨db2, ⟨500, false, none, "提现申请失败"⟩, true⟩

/-- `exports.withdraw` (fixed revision of electricianController): reject when a
processing Withdrawal exists; check openid and approved real-name
certification; compute balance in the same transaction; default the amount to
`availableBalance` when the request amount is absent or `0` (JS falsiness);
enforce the 0.10 minimum and the available balance; insert the `pending` row
with balance snapshots and commit; then run the post-commit phase
`withdrawCommit` against the gateway. -/
def withdraw (db : DB) (eid : Nat) (amountOpt : Option ℚ) (outBatchNo : String)
    (gw : TransferResult) : WithdrawResult :=
  if db.withdrawals.any (fun w =>
      decide (w.electrician_id = eid ∧ w.status = WStatus.processing)) then
    ⟨db, ⟨400, false, none, "您有提现申请正在处理中，请等待处理完成后再试"⟩, false⟩
  else
    match db.users.find? (fun u => decide (u.id = eid)) with
    | none => ⟨db, ⟨400, false, none, "用户未绑定微信，无法提现"⟩, false⟩
    | some user =>
      match user.openid with
      | none => ⟨db, ⟨400, false, none, "用户未绑定微信，无法提现"⟩, false⟩
      | some openid =>
        match db.certifications.find? (fun c =>
            decide (c.user_id = eid ∧ c.status = "approved")) with
        | none => ⟨db, ⟨400, false, none, "请先完成实名认证"⟩, false⟩
        | some cert =>
          match cert.real_name with
          | none => ⟨db, ⟨400, false, none, "请先完成实名认证"⟩, false⟩
          | some realName =>
            let balance := calculateBalance db eid
            let withdrawAmount :=
              match amountOpt with
              | some a => if a = 0 then balance.availableBalance else a
              | none => balance.availableBalance
            if withdrawAmount < 1/10 then
              ⟨db, ⟨400, false, none, "提现金额不能低于0.10元"⟩, false⟩
            else if balance.availableBalance < withdrawAmount then
              ⟨db, ⟨400, false, none, "余额不足"⟩, false⟩
            else
              let row : Withdrawal :=
                { id := freshWId db
                  electrician_id := eid
                  amount := withdrawAmount
                  status := WStatus.pending
                  out_batch_no := outBatchNo
                  transfer_bill_no := none
                  openid := openid
                  real_name := some realName
                  total_income_snapshot := balance.totalIncome
                  withdrawn_snapshot := balance.withdrawnAmount
                  available_balance_snapshot := balance.availableBalance
                  fail_reason := none
                  completed_at := none
                  package_info := none }
              withdrawCommit db row gw

/-! ### Payment webhook and status query (paymentController) -/

/-- Result of `handlePaymentNotify` (signature verification + AEAD
decryption), supplied as an oracle: `success = false` models any
verification/decryption failure. -/
structure NotifyResult where
  success : Bool
  out_trade_no : String
  transaction_id : String
  trade_state : String
  success_time : Option Nat
  deriving DecidableEq

/-- Response returned to the gateway by the webhook handler. -/
inductive GwResp
  | ok
  | fail (msg : String)
  deriving DecidableEq

/-- Result of one webhook delivery. -/
structure NotifyOutcome where
  db : DB
  resp : GwResp
  deriving DecidableEq

/-- `transitionRepairPaymentSuccess`: order becomes `in_progress`, a status
log is appended, the user is notified, and the electrician is notified when
one is assigned. -/
def transitionRepairPaymentSuccess (db : DB) (o : Order) (operatorId : Nat)
    (now : Nat) : DB :=
  let db1 := updOWhere db (fun x => decide (x.id = o.id))
    (fun x => { x with status := OStatus.in_progress, repair_paid_at := some now })
  let db2 := addLog db1
    { order_id := o.id, from_status := some o.status,
      to_status := OStatus.in_progress, operator_id := operatorId,
      operator_type := "user", remark := "维修费支付成功，订单进入维修中" }
  let db3 := addMsg db2
    { user_id := o.user_id, title := "维修费支付成功",
      content := "您的工单维修费已支付成功，电工即将上门维修。", related_id := o.id }
  match o.electrician_id with
  | some elec => addMsg db3
      { user_id := elec, title := "用户已支付维修费",
        content := "用户已支付维修费，请尽快安排维修。", related_id := o.id }
  | none => db3

/-- Prepay success path shared by webhook and active query: order becomes
`pending`, a status log and a user notification are appended. -/
def applyPrepaySuccess (db : DB) (o : Order) (now : Nat) : DB :=
  let db1 := updOWhere db (fun x => decide (x.id = o.id))
    (fun x => { x with status := OStatus.pending, prepaid_at := some now })
  let db2 := addLog db1
    { order_id := o.id, from_status := none, to_status := OStatus.pending,
      operator_id := o.user_id, operator_type := "user",
      remark := "预付款支付成功，进入待接单" }
  addMsg db2
    { user_id := o.user_id, title := "预付款支付成功",
      content := "您的工单预付款已支付成功，现已进入待接单。", related_id := o.id }

/-- `PaymentController.wechatNotify`: on verification failure or unknown
order number return a FAIL response with no mutation; if the Payment is
already `success` return SUCCESS without reapplying anything; otherwise mark
the Payment `success`, stamp `paid_at`, and fire the order transition for
the payment type.  (The decrypted `trade_state` is never consulted.) -/
def wechatNotify (db : DB) (n : NotifyResult) (now : Nat) : NotifyOutcome :=
  if n.success = false then
    ⟨db, GwResp.fail "验证失败"⟩
  else
    match db.payments.find? (fun p => decide (p.out_trade_no = n.out_trade_no)) with
    | none => ⟨db, GwResp.fail "支付记录不存在"⟩
    | some payment =>
      if payment.status = PStatus.success then
        ⟨db, GwResp.ok⟩
      else
        let db1 := updPWhere db (fun p => decide (p.out_trade_no = n.out_trade_no))
          (fun p => { p with
            status := PStatus.success
            transaction_id := some n.transaction_id
            paid_at := some (n.success_time.getD now) })
        match db.orders.find? (fun o => decide (o.id = payment.order_id)) with
        | none => ⟨db1, GwResp.ok⟩
        | some o =>
          if payment.type = PayType.prepay then
            ⟨applyPrepaySuccess db1 o now, GwResp.ok⟩
          else
            ⟨transitionRepairPaymentSuccess db1 o o.user_id now, GwResp.ok⟩

/-- Payload of the gateway `queryOrder` call. -/
structure QueryOrderResult where
  success : Bool
  trade_state : String
  transaction_id : String
  deriving DecidableEq

/-- Result of one payment status query: database afterwards, HTTP status,
and the Payment record handed back to the caller (if any). -/
structure QueryPaymentOutcome where
  db : DB
  httpStatus : Nat
  returned : Option Payment
  deriving DecidableEq

/-- `PaymentController.queryPayment`: look up by merchant order number and
owner; when the Payment is `pending` and paid through the wechat gateway,
actively query the gateway — trade state SUCCESS marks the Payment success
(for prepay with the same order transition as the webhook; for repair with
a log and notification but no order update), CLOSED marks it expired, and a
thrown query error is swallowed, returning the last-known local state. -/
def queryPayment (db : DB) (paymentNo : String) (userId : Nat)
    (gwq : Except ApiErr QueryOrderResult) (now : Nat) : QueryPaymentOutcome :=
  match db.payments.find? (fun p => decide (p.out_trade_no = paymentNo)) with
  | none => ⟨db, 404, none⟩
  | some payment =>
    if payment.user_id ≠ userId then
      ⟨db, 403, none⟩
    else if payment.status = PStatus.pending ∧ payment.payment_method = "wechat" then
      match gwq with
      | Except.error _ => ⟨db, 200, some payment⟩
      | Except.ok q =>
        if q.success = true ∧ q.trade_state = "SUCCESS" then
          let db1 := updPWhere db (fun p => decide (p.out_trade_no = paymentNo))
            (fun p => { p with
              status := PStatus.success
              transaction_id := some q.transaction_id
              paid_at := some now })
          let db2 :=
            match db.orders.find? (fun o => decide (o.id = payment.order_id)) with
            | none => db1
            | some o =>
              if payment.type = PayType.prepay then
                applyPrepaySuccess db1 o now
              else
                let dbA := addLog db1
                  { order_id := payment.order_id, from_status := none,
                    to_status := OStatus.pending_repair_payment,
                    operator_id := o.user_id, operator_type := "user",
                    remark := "维修费支付成功" }
                addMsg dbA
                  { user_id := o.user_id, title := "维修费支付成功",
                    content := "您的工单维修费已支付成功，请等待电工开始维修。",
                    related_id := o.id }
          ⟨db2, 200,
            db2.payments.find? (fun p => decide (p.out_trade_no = paymentNo))⟩
        else if q.success = true ∧ q.trade_state = "CLOSED" then
          let db1 := updPWhere db (fun p => decide (p.out_trade_no = paymentNo))
            (fun p => { p with
              status := PStatus.expired
              failed_reason := some "支付超时关闭" })
          ⟨db1, 200,
            db1.payments.find? (fun p => decide (p.out_trade_no = paymentNo))⟩
        else
          ⟨db, 200, some payment⟩
    else
      ⟨db, 200, some payment⟩

/-! ### Withdrawal status query, webhook and cancellation -/

/-- Payload of the gateway `queryTransferBill` call. -/
structure TransferQueryResult where
  state : String
  fail_reason : Option String
  deriving DecidableEq

/-- Result of one withdrawal status query or cancellation: database
afterwards, HTTP status, the Withdrawal status handed back, and whether a
gateway call was made. -/
structure WStatusOutcome where
  db : DB
  httpStatus : Nat
  returnedStatus : Option WStatus
  gatewayCalled : Bool
  deriving DecidableEq

/-- `exports.queryWithdrawalStatus` (fixed revision): look up the Withdrawal
by electrician id and batch number; return a terminal record as-is; else
query the gateway and map SUCCESS→success (stamping `completed_at`),
FAIL→failed, CANCELLED→cancelled, leaving PROCESSING/WAIT_USER_CONFIRM (and
anything else) unchanged; a thrown query error returns the local state. -/
def queryWithdrawalStatus (db : DB) (eid : Nat) (outBatchNo : String)
    (gwq : Except ApiErr TransferQueryResult) (now : Nat) : WStatusOutcome :=
  match db.withdrawals.find? (fun w =>
      decide (w.electrician_id = eid ∧ w.out_batch_no = outBatchNo)) with
  | none => ⟨db, 404, none, false⟩
  | some w =>
    if w.status = WStatus.success ∨ w.status = WStatus.failed ∨
        w.status = WStatus.cancelled then
      ⟨db, 200, some w.status, false⟩
    else
      match gwq with
      | Except.error _ => ⟨db, 200, some w.status, true⟩
      | Except.ok q =>
        let db1 :=
          if q.state = "SUCCESS" then
            updWWhere db (fun x => decide (x.id = w.id))
              (fun x => { x with status := WStatus.success, completed_at := some now })
          else if q.state = "FAIL" then
            updWWhere db (fun x => decide (x.id = w.id))
              (fun x => { x with
                status := WStatus.failed
                fail_reason := some (q.fail_reason.getD "转账失败") })
          else if q.state = "CANCELLED" then
            updWWhere db (fun x => decide (x.id = w.id))
              (fun x => { x with
                status := WStatus.cancelled
                fail_reason := some "用户取消" })
          else
            db
        let newStatus :=
          (db1.withdrawals.find? (fun x => decide (x.id = w.id))).map
            (fun x => x.status)
        ⟨db1, 200, newStatus, true⟩

/-- Decrypted payload of a withdrawal webhook. -/
structure TransferNotifyData where
  out_bill_no : String
  state : Option String
  transfer_state : Option String
  fail_reason : Option String
  deriving DecidableEq

/-- `exports.withdrawalCallback` (direct-update revision, part_002): after
signature verification and decryption, read `state || transfer_state` and
update the rows matching `out_batch_no = out_bill_no`: SUCCESS→success with
`completed_at`; FAIL or CANCELLED→failed with a reason; anything else makes
no change. -/
def withdrawalCallbackDirect (db : DB) (verified : Bool)
    (d : TransferNotifyData) (now : Nat) : NotifyOutcome :=
  if verified = false then
    ⟨db, GwResp.fail "签名验证失败"⟩
  else
    let transferState := d.state.orElse (fun _ => d.transfer_state)
    let db1 :=
      if transferState = some "SUCCESS" then
        updWWhere db (fun x => decide (x.out_batch_no = d.out_bill_no))
          (fun x => { x with
            status := WStatus.success
            completed_at := some now })
      else if transferState = some "FAIL" ∨ transferState = some "CANCELLED" then
        updWWhere db (fun x => decide (x.out_batch_no = d.out_bill_no))
          (fun x => { x with
            status := WStatus.failed
            fail_reason := some (d.fail_reason.getD "转账失败") })
      else
        db
    ⟨db1, GwResp.ok⟩

/-- Payload of the gateway `cancelTransferBill` call. -/
structure CancelResult where
  transfer_bill_no : Option String
  state : Option String
  deriving DecidableEq

/-- `exports.cancelWithdrawal`: look the Withdrawal up by the pair
(batch number, electrician id); 404 when absent; return the current state
with no gateway call when already terminal; otherwise call the gateway
cancel API and locally mark the row `cancelled` as the authoritative
outcome. -/
def cancelWithdrawal (db : DB) (eid : Nat) (outBatchNo : String)
    (gc : Except ApiErr CancelResult) (now : Nat) : WStatusOutcome :=
  match db.withdrawals.find? (fun w =>
      decide (w.out_batch_no = outBatchNo ∧ w.electrician_id = eid)) with
  | none => ⟨db, 404, none, false⟩
  | some w =>
    if w.status = WStatus.success ∨ w.status = WStatus.failed ∨
        w.status = WStatus.cancelled then
      ⟨db, 200, some w.status, false⟩
    else
      match gc with
      | Except.error _ => ⟨db, 500, none, true⟩
      | Except.ok _ =>
        let db1 := updWWhere db (fun x => decide (x.id = w.id))
          (fun x => { x with
            status := WStatus.cancelled
            fail_reason := some "用户取消"
            completed_at := some now })
        ⟨db1, 200, some WStatus.cancelled, true⟩

theorem twoDP_round2_eq {q : ℚ} (h : TwoDP q) : round2 q = q := by
  unfold TwoDP at h
  have hq : ((q * 100).num : ℚ) = q * 100 := by
    exact (Rat.den_eq_one_iff _).mp h
  unfold round2
  rw [← hq, round_intCast, hq]
  field_simp

theorem twoDP_add {a b : ℚ} (ha : TwoDP a) (hb : TwoDP b) : TwoDP (a + b) := by
  unfold TwoDP at *
  have hA : ((a * 100).num : ℚ) = a * 100 := by exact (Rat.den_eq_one_iff _).mp ha
  have hB : ((b * 100).num : ℚ) = b * 100 := by exact (Rat.den_eq_one_iff _).mp hb
  have : (a + b) * 100 = (((a * 100).num + (b * 100).num : ℤ) : ℚ) := by
    push_cast
    rw [hA, hB]; ring
  rw [this, Rat.den_intCast]

theorem twoDP_zero : TwoDP 0 := by unfold TwoDP; norm_num

theorem twoDP_neg {a : ℚ} (ha : TwoDP a) : TwoDP (-a) := by
  unfold TwoDP at *
  have hA : ((a * 100).num : ℚ) = a * 100 := by exact (Rat.den_eq_one_iff _).mp ha
  have : (-a) * 100 = ((-(a * 100).num : ℤ) : ℚ) := by push_cast; rw [hA]; ring
  rw [this, Rat.den_intCast]

theorem twoDP_sub {a b : ℚ} (ha : TwoDP a) (hb : TwoDP b) : TwoDP (a - b) := by
  have := twoDP_add ha (twoDP_neg hb)
  simpa [sub_eq_add_neg] using this

theorem twoDP_sumAmounts {l : List ℚ} (h : ∀ q ∈ l, TwoDP q) :
    TwoDP (sumAmounts l) := by
  induction l with
  | nil => exact twoDP_zero
  | cons a t ih =>
      have ha : TwoDP a := h a (List.mem_cons_self a t)
      have ht : ∀ q ∈ t, TwoDP q := fun q hq => h q (List.mem_cons_of_mem a hq)
      simpa [sumAmounts] using twoDP_add ha (ih ht)

/-! ### Shared lemmas about table updates -/

theorem mem_map_upd {α : Type} {l : List α} {p : α → Bool} {f : α → α} {x : α}
    (hx : x ∈ l.map (fun a => if p a then f a else a)) :
    (∃ a ∈ l, p a = true ∧ x = f a) ∨ (∃ a ∈ l, p a = false ∧ x = a) := by
  rcases List.mem_map.mp hx with ⟨a, ha, hax⟩
  by_cases hpa : p a = true
  · left; exact ⟨a, ha, hpa, by rw [← hax]; simp [hpa]⟩
  · right
    exact ⟨a, ha, by simpa using hpa, by rw [← hax]; simp [Bool.eq_false_iff.mpr hpa]⟩

theorem map_upd_id {α : Type} {l : List α} {p : α → Bool} {f : α → α}
    (h : ∀ a ∈ l, p a = false) :
    l.map (fun a => if p a then f a else a) = l := by
  induction l with
  | nil => rfl
  | cons a t ih =>
      have ha : p a = false := h a (List.mem_cons_self a t)
      have ht := ih (fun x hx => h x (List.mem_cons_of_mem a hx))
      simp [ha, ht]

/-- Updating rows whose id does not occur in the table is a no-op on the old
rows; only the freshly appended row is rewritten. -/
theorem updWWhere_fresh_append (db : DB) (row : Withdrawal)
    (f : Withdrawal → Withdrawal)
    (hfresh : ∀ w ∈ db.withdrawals, w.id ≠ row.id) :
    updWWhere { db with withdrawals := db.withdrawals ++ [row] }
      (fun w => decide (w.id = row.id)) f
      = { db with withdrawals := db.withdrawals ++ [f row] } := by
  have h1 : (db.withdrawals ++ [row]).map
      (fun w => if decide (w.id = row.id) then f w else w)
      = db.withdrawals ++ [f row] := by
    rw [List.map_append]
    rw [map_upd_id (fun w hw => by
      simp only [decide_eq_false_iff_not]
      exact hfresh w hw)]
    simp
  unfold updWWhere
  dsimp only
  rw [h1]

/-- Every row id is strictly below the fresh auto-increment id. -/
theorem freshWId_not_mem (db : DB) : ∀ w ∈ db.withdrawals, w.id ≠ freshWId db := by
  unfold freshWId
  have key : ∀ l : List Withdrawal, ∀ w ∈ l,
      w.id ≤ l.foldr (fun w m => max w.id m) 0 := by
    intro l
    induction l with
    | nil => intro w hw; cases hw
    | cons a t ih =>
        intro w hw
        rcases List.mem_cons.mp hw with h | h
        · subst h; exact le_max_left _ _
        · exact le_trans (ih w h) (le_max_right _ _)
  intro w hw hcontra
  have := key db.withdrawals w hw
  omega

/-- Rows of this electrician currently in `processing` status. -/
def processingRows (db : DB) (eid : Nat) : List Withdrawal :=
  db.withdrawals.filter (fun w =>
    decide (w.electrician_id = eid ∧ w.status = WStatus.processing))

/-- The per-electrician serialization invariant. -/
def atMostOneProcessing (db : DB) (eid : Nat) : Prop :=
  (processingRows db eid).length ≤ 1

theorem processingRows_nil_of_any_false {db : DB} {eid : Nat}
    (h : db.withdrawals.any (fun w =>
      decide (w.electrician_id = eid ∧ w.status = WStatus.processing)) = false) :
    processingRows db eid = [] := by
  unfold processingRows
  rw [List.filter_eq_nil_iff]
  intro w hw
  have := List.any_eq_false.mp h w hw
  simpa using this

/-- The three possible outcomes of the post-commit phase, fully explicit. -/
theorem withdrawCommit_ok (db : DB) (row : Withdrawal) (t : TransferOk)
    (hfresh : ∀ w ∈ db.withdrawals, w.id ≠ row.id) :
    withdrawCommit db row (TransferResult.ok t) =
      ⟨{ db with withdrawals := db.withdrawals ++ [{ row with
          status := WStatus.processing
          transfer_bill_no := some (t.transfer_bill_no.getD t.out_bill_no)
          package_info := t.package_info }] },
        ⟨200, true, none, "提现申请已提交，请确认收款"⟩, true⟩ := by
  unfold withdrawCommit
  simp only []
  rw [updWWhere_fresh_append _ _ _ (by simpa using hfresh)]

theorem withdrawCommit_err_rate (db : DB) (row : Withdrawal) (e : ApiErr)
    (hfresh : ∀ w ∈ db.withdrawals, w.id ≠ row.id)
    (hrate : e.status = some 429 ∨ e.code = some "FREQUENCY_LIMIT_EXCEED") :
    withdrawCommit db row (TransferResult.err e) =
      ⟨{ db with withdrawals := db.withdrawals ++ [{ row with
          status := WStatus.failed
          fail_reason := some "请求过于频繁，请稍后再试" }] },
        ⟨429, false, some "RATE_LIMIT_EXCEEDED",
          "提现请求过于频繁，请5分钟后再试"⟩, true⟩ := by
  unfold withdrawCommit
  simp only [if_pos hrate]
  rw [updWWhere_fresh_append _ _ _ (by simpa using hfresh)]

theorem withdrawCommit_err_other (db : DB) (row : Withdrawal) (e : ApiErr)
    (hfresh : ∀ w ∈ db.withdrawals, w.id ≠ row.id)
    (hrate : ¬(e.status = some 429 ∨ e.code = some "FREQUENCY_LIMIT_EXCEED")) :
    withdrawCommit db row (TransferResult.err e) =
      ⟨{ db with withdrawals := db.withdrawals ++ [{ row with
          status := WStatus.failed
          fail_reason := some (if e.message = "" then
            "微信转账接口调用失败" else e.message) }] },
        ⟨500, false, none, "提现申请失败"⟩, true⟩ := by
  unfold withdrawCommit
  simp only [if_neg hrate]
  rw [updWWhere_fresh_append _ _ _ (by simpa using hfresh)]

/-- Case analysis on one `withdraw` call: either the database is unchanged
(any rejection path, in which case no gateway call was made), or the
processing guard held, exactly one fresh row of this electrician was
appended, and that row ends in `processing` or in `failed` with a reason. -/
theorem withdraw_db_cases (db : DB) (eid : Nat) (a : Option ℚ) (obn : String)
    (gw : TransferResult) :
    ((withdraw db eid a obn gw).db = db ∧
      (withdraw db eid a obn gw).gatewayCalled = false) ∨
    (processingRows db eid = [] ∧
      ∃ r : Withdrawal,
        (withdraw db eid a obn gw).db =
          { db with withdrawals := db.withdrawals ++ [r] } ∧
        (∀ w ∈ db.withdrawals, w.id ≠ r.id) ∧
        r.electrician_id = eid ∧
        (r.status = WStatus.processing ∨
          (r.status = WStatus.failed ∧ r.fail_reason.isSome = true)) ∧
        (withdraw db eid a obn gw).gatewayCalled = true) := by
  unfold withdraw
  split
  · left; exact ⟨rfl, rfl⟩
  case isFalse hany =>
    have hnil : processingRows db eid = [] :=
      processingRows_nil_of_any_false (by simpa using hany)
    split
    · left; exact ⟨rfl, rfl⟩
    case h_2 user huser =>
      cases hopen : user.openid with
      | none => left; simp [hopen]
      | some openid =>
        simp only [hopen]
        split
        · left; exact ⟨rfl, rfl⟩
        case h_2 cert hcert =>
          cases hreal : cert.real_name with
          | none => left; simp [hreal]
          | some realName =>
            simp only [hreal]
            split
            · left; exact ⟨rfl, rfl⟩
            · split
              · left; exact ⟨rfl, rfl⟩
              · right
                refine ⟨hnil, ?_⟩
                have hfresh : ∀ w ∈ db.withdrawals, w.id ≠ freshWId db :=
                  freshWId_not_mem db
                cases gw with
                | ok t =>
                    rw [withdrawCommit_ok _ _ _ hfresh]
                    exact ⟨_, rfl, hfresh, rfl, Or.inl rfl, rfl⟩
                | err e =>
                    by_cases hrate :
                        e.status = some 429 ∨ e.code = some "FREQUENCY_LIMIT_EXCEED"
                    · rw [withdrawCommit_err_rate _ _ _ hfresh hrate]
                      exact ⟨_, rfl, hfresh, rfl, Or.inr ⟨rfl, rfl⟩, rfl⟩
                    · rw [withdrawCommit_err_other _ _ _ hfresh hrate]
                      exact ⟨_, rfl, hfresh, rfl, Or.inr ⟨rfl, rfl⟩, rfl⟩

/-! ### Sample database rows used to evaluate the theorems on concrete data -/

def sampleOrder : Order :=
  ⟨1, "ORD1", 3, some 7, OStatus.completed, 100, none, none⟩

def sampleReview : Review := ⟨1, 5⟩

def samplePayment : Payment :=
  ⟨1, 1, 3, "P1", 50, "wechat", PayType.prepay, PStatus.success, none, none, none⟩

def sampleUser : User := ⟨7, some "oid7"⟩

def sampleCert : Certification := ⟨7, "approved", some "张三"⟩

def wSuccessRow : Withdrawal :=
  ⟨1, 7, 21/2, WStatus.success, "W0", none, "oid7", some "张三",
    0, 0, 0, none, none, none⟩

def wProcessingRow : Withdrawal :=
  ⟨2, 7, 13/4, WStatus.processing, "W9", none, "oid7", some "张三",
    0, 0, 0, none, none, none⟩

/-- Electrician 7 with one eligible order worth 50, one past successful
withdrawal of 10.50 and one processing withdrawal of 3.25. -/
def dbC1 : DB :=
  ⟨[sampleOrder], [sampleReview], [samplePayment],
    [wSuccessRow, wProcessingRow], [sampleUser], [sampleCert], [], []⟩

/-! ### Claims -/

/-- C1: for every electrician, `calculateBalance` returns `withdrawnAmount`
equal to the sum of `amount` over that electrician's Withdrawals with status
success only, `lockedAmount` equal to the sum over their Withdrawals with
status processing, and `availableBalance` equal to
totalIncome − withdrawnAmount − lockedAmount rounded to 2 decimal places;
processing withdrawals are never counted in `withdrawnAmount`. -/
theorem calculateBalance_spec (db : DB) (eid : Nat)
    (hW : ∀ w ∈ db.withdrawals, TwoDP w.amount)
    (hP : ∀ p ∈ db.payments, TwoDP p.amount) :
    (calculateBalance db eid).withdrawnAmount =
      sumAmounts ((db.withdrawals.filter (fun w =>
        decide (w.electrician_id = eid ∧ w.status = WStatus.success))).map
        (fun w => w.amount)) ∧
    (calculateBalance db eid).lockedAmount =
      sumAmounts ((db.withdrawals.filter (fun w =>
        decide (w.electrician_id = eid ∧ w.status = WStatus.processing))).map
        (fun w => w.amount)) ∧
    (calculateBalance db eid).availableBalance =
      round2 ((calculateBalance db eid).totalIncome -
        (calculateBalance db eid).withdrawnAmount -
        (calculateBalance db eid).lockedAmount) := by
  have hWsum : TwoDP (sumAmounts ((db.withdrawals.filter (fun w =>
      decide (w.electrician_id = eid ∧ w.status = WStatus.success))).map
      (fun w => w.amount))) := by
    apply twoDP_sumAmounts
    intro q hq
    rcases List.mem_map.mp hq with ⟨w, hw, rfl⟩
    exact hW w (List.mem_of_mem_filter hw)
  have hLsum : TwoDP (sumAmounts ((db.withdrawals.filter (fun w =>
      decide (w.electrician_id = eid ∧ w.status = WStatus.processing))).map
      (fun w => w.amount))) := by
    apply twoDP_sumAmounts
    intro q hq
    rcases List.mem_map.mp hq with ⟨w, hw, rfl⟩
    exact hW w (List.mem_of_mem_filter hw)
  have hPsum : TwoDP (sumAmounts ((db.payments.filter (fun p =>
      decide (p.order_id ∈ eligibleOrderIds db eid ∧ p.status = PStatus.success ∧
        (p.type = PayType.prepay ∨ p.type = PayType.repair)))).map
      (fun p => p.amount))) := by
    apply twoDP_sumAmounts
    intro q hq
    rcases List.mem_map.mp hq with ⟨p, hp, rfl⟩
    exact hP p (List.mem_of_mem_filter hp)
  refine ⟨?_, ?_, ?_⟩
  · simp only [calculateBalance]
    exact twoDP_round2_eq hWsum
  · simp only [calculateBalance]
    exact twoDP_round2_eq hLsum
  · simp only [calculateBalance]
    rw [twoDP_round2_eq hPsum, twoDP_round2_eq hWsum, twoDP_round2_eq hLsum]

/-- Witness for C1 at the concrete ledger `dbC1`. -/
theorem calculateBalance_spec_witness :
    (∀ w ∈ dbC1.withdrawals, TwoDP w.amount) ∧
    (∀ p ∈ dbC1.payments, TwoDP p.amount) ∧
    ((calculateBalance dbC1 7).withdrawnAmount =
      sumAmounts ((dbC1.withdrawals.filter (fun w =>
        decide (w.electrician_id = 7 ∧ w.status = WStatus.success))).map
        (fun w => w.amount)) ∧
    (calculateBalance dbC1 7).lockedAmount =
      sumAmounts ((dbC1.withdrawals.filter (fun w =>
        decide (w.electrician_id = 7 ∧ w.status = WStatus.processing))).map
        (fun w => w.amount)) ∧
    (calculateBalance dbC1 7).availableBalance =
      round2 ((calculateBalance dbC1 7).totalIncome -
        (calculateBalance dbC1 7).withdrawnAmount -
        (calculateBalance dbC1 7).lockedAmount)) := by
  have hW : ∀ w ∈ dbC1.withdrawals, TwoDP w.amount := by
    intro w hw
    simp only [dbC1, List.mem_cons, List.not_mem_nil, or_false] at hw
    rcases hw with rfl | rfl
    · norm_num [TwoDP, wSuccessRow]
    · norm_num [TwoDP, wProcessingRow]
  have hP : ∀ p ∈ dbC1.payments, TwoDP p.amount := by
    intro p hp
    simp only [dbC1, List.mem_cons, List.not_mem_nil, or_false] at hp
    rcases hp with rfl
    norm_num [TwoDP, samplePayment]
  exact ⟨hW, hP, calculateBalance_spec dbC1 7 hW hP⟩

/-- C2: at most one processing Withdrawal exists per electrician: a
`withdraw` call made while the electrician already has a processing
Withdrawal is rejected (HTTP 400) before any gateway call and before any row
is inserted, and a `withdraw` step — whose guard and insert share one atomic
transaction scope — preserves the at-most-one-processing invariant for every
electrician. -/
theorem withdraw_single_processing (db : DB) (eid : Nat) (a : Option ℚ)
    (obn : String) (gw : TransferResult) :
    ((∃ w ∈ db.withdrawals,
        w.electrician_id = eid ∧ w.status = WStatus.processing) →
      (withdraw db eid a obn gw).db = db ∧
      (withdraw db eid a obn gw).gatewayCalled = false ∧
      (withdraw db eid a obn gw).resp.httpStatus = 400 ∧
      (withdraw db eid a obn gw).resp.success = false) ∧
    (∀ eid', atMostOneProcessing db eid' →
      atMostOneProcessing (withdraw db eid a obn gw).db eid') := by
  constructor
  · rintro ⟨w, hw, he, hs⟩
    have hany : db.withdrawals.any (fun w =>
        decide (w.electrician_id = eid ∧ w.status = WStatus.processing)) = true :=
      List.any_eq_true.mpr ⟨w, hw, by simp [he, hs]⟩
    unfold withdraw
    rw [if_pos hany]
    exact ⟨rfl, rfl, rfl, rfl⟩
  · intro eid' hle
    rcases withdraw_db_cases db eid a obn gw with
      ⟨hdb, _⟩ | ⟨hnil, r, hdb, _, helec, hstat, _⟩
    · rw [hdb]; exact hle
    · rw [hdb]
      unfold processingRows at hnil
      unfold atMostOneProcessing processingRows at hle ⊢
      simp only [List.filter_append, List.length_append]
      by_cases hpr : r.electrician_id = eid' ∧ r.status = WStatus.processing
      · obtain ⟨hre, hrs⟩ := hpr
        have heq : eid' = eid := by rw [← hre, helec]
        subst heq
        rw [hnil]
        simp [hre, hrs]
      · have hr0 : List.filter (fun w =>
            decide (w.electrician_id = eid' ∧ w.status = WStatus.processing))
            [r] = [] := by
          have hd : decide (r.electrician_id = eid' ∧
              r.status = WStatus.processing) = false := decide_eq_false hpr
          simp only [List.filter, hd]
        rw [hr0]
        simpa using hle

/-- Witness for C2: electrician 7 already has a processing Withdrawal in
`dbC1`, so a second withdraw call is rejected with no state change and no
gateway call, and the invariant is preserved. -/
theorem withdraw_single_processing_witness :
    ((withdraw dbC1 7 (some 5) "W1" (TransferResult.ok ⟨some "TB1", "W1", none, none⟩)).db = dbC1 ∧
      (withdraw dbC1 7 (some 5) "W1" (TransferResult.ok ⟨some "TB1", "W1", none, none⟩)).gatewayCalled = false ∧
      (withdraw dbC1 7 (some 5) "W1" (TransferResult.ok ⟨some "TB1", "W1", none, none⟩)).resp.httpStatus = 400 ∧
      (withdraw dbC1 7 (some 5) "W1" (TransferResult.ok ⟨some "TB1", "W1", none, none⟩)).resp.success = false) ∧
    atMostOneProcessing (withdraw dbC1 7 (some 5) "W1" (TransferResult.ok ⟨some "TB1", "W1", none, none⟩)).db 7 := by
  have h := withdraw_single_processing dbC1 7 (some 5) "W1"
    (TransferResult.ok ⟨some "TB1", "W1", none, none⟩)
  have hex : ∃ w ∈ dbC1.withdrawals,
      w.electrician_id = 7 ∧ w.status = WStatus.processing := by
    refine ⟨wProcessingRow, ?_, rfl, rfl⟩
    simp [dbC1]
  have hinv : atMostOneProcessing dbC1 7 := by
    unfold atMostOneProcessing processingRows
    simp [dbC1, wSuccessRow, wProcessingRow, List.filter]
  exact ⟨h.1 hex, h.2 7 hinv⟩

/-- C3: delivering the payment webhook again for a Payment already in status
success returns the gateway success response and leaves the whole database
unchanged: the stored Payment is untouched, no order-state transition is
re-run, and no status-log or notification rows are created. -/
theorem wechatNotify_duplicate_idempotent (db : DB) (n : NotifyResult)
    (now : Nat) (p : Payment)
    (hn : n.success = true)
    (hfind : db.payments.find? (fun q =>
      decide (q.out_trade_no = n.out_trade_no)) = some p)
    (hp : p.status = PStatus.success) :
    wechatNotify db n now = ⟨db, GwResp.ok⟩ := by
  unfold wechatNotify
  rw [hn, hfind]
  simp [hp]

/-- Witness for C3: a duplicate delivery for the already-successful Payment
"P1" of `dbC1` changes nothing and answers SUCCESS. -/
theorem wechatNotify_duplicate_idempotent_witness :
    wechatNotify dbC1 ⟨true, "P1", "T1", "SUCCESS", some 9⟩ 9 = ⟨dbC1, GwResp.ok⟩ :=
  wechatNotify_duplicate_idempotent dbC1 ⟨true, "P1", "T1", "SUCCESS", some 9⟩ 9
    samplePayment rfl (by simp [dbC1, List.find?, samplePayment]) rfl

/-- Electrician 7 with available balance 50 and no prior withdrawals. -/
def dbAvail : DB :=
  ⟨[sampleOrder], [sampleReview], [samplePayment], [], [sampleUser],
    [sampleCert], [], []⟩

/-- A successful gateway transfer response used in concrete runs. -/
def gwOkSample : TransferResult := TransferResult.ok ⟨some "TB1", "W1", none, none⟩

/-- C4 counterexample: with available balance 50, a request for amount 0 —
which is below the configured minimum of 0.10 — is not rejected: JS falsiness
of `amount` silently replaces it with the full available balance, a row is
inserted and the gateway transfer is called. -/
theorem withdraw_zero_amount_not_rejected :
    (0 : ℚ) < 1/10 ∧
    (withdraw dbAvail 7 (some 0) "W1" gwOkSample).gatewayCalled = true ∧
    (withdraw dbAvail 7 (some 0) "W1" gwOkSample).resp.httpStatus = 200 ∧
    (withdraw dbAvail 7 (some 0) "W1" gwOkSample).db.withdrawals.length = 1 ∧
    dbAvail.withdrawals.length = 0 := by
  refine ⟨by norm_num, ?_⟩
  have hbal : calculateBalance dbAvail 7 = ⟨50, 0, 0, 50⟩ := by
    unfold calculateBalance eligibleOrderIds
    norm_num [dbAvail, sampleOrder, sampleReview, samplePayment, List.filter,
      List.any, sumAmounts, round2, round_eq]
  have heval : withdraw dbAvail 7 (some 0) "W1" gwOkSample =
      withdrawCommit dbAvail
        { id := freshWId dbAvail
          electrician_id := 7
          amount := 50
          status := WStatus.pending
          out_batch_no := "W1"
          transfer_bill_no := none
          openid := "oid7"
          real_name := some "张三"
          total_income_snapshot := 50
          withdrawn_snapshot := 0
          available_balance_snapshot := 50
          fail_reason := none
          completed_at := none
          package_info := none } gwOkSample := by
    unfold withdraw
    simp only [hbal]
    norm_num [dbAvail, sampleUser, sampleCert, List.any, List.find?, freshWId]
  rw [heval]
  unfold gwOkSample
  rw [withdrawCommit_ok _ _ _ (by intro w hw; simp [dbAvail] at hw)]
  refine ⟨rfl, rfl, ?_, rfl⟩
  simp [dbAvail]

/-- C4 (amended): for every `withdraw` call whose requested amount is
nonzero and below the 0.10 minimum or above the computed availableBalance,
the call is rejected synchronously with a 400 error, no Withdrawal row is
persisted (the open transaction is rolled back), and no gateway call is
made.  (An absent or zero requested amount instead defaults to the full
available balance.) -/
theorem withdraw_amount_validation (db : DB) (eid : Nat) (aq : ℚ)
    (obn : String) (gw : TransferResult)
    (ha : aq ≠ 0)
    (hbad : aq < 1/10 ∨ (calculateBalance db eid).availableBalance < aq) :
    (withdraw db eid (some aq) obn gw).db = db ∧
    (withdraw db eid (some aq) obn gw).gatewayCalled = false ∧
    (withdraw db eid (some aq) obn gw).resp.httpStatus = 400 ∧
    (withdraw db eid (some aq) obn gw).resp.success = false := by
  unfold withdraw
  split
  · exact ⟨rfl, rfl, rfl, rfl⟩
  · split
    · exact ⟨rfl, rfl, rfl, rfl⟩
    case h_2 user huser =>
      cases hopen : user.openid with
      | none => simp [hopen]
      | some openid =>
        simp only [hopen]
        split
        · exact ⟨rfl, rfl, rfl, rfl⟩
        case h_2 cert hcert =>
          cases hreal : cert.real_name with
          | none => simp [hreal]
          | some realName =>
            simp only [hreal, if_neg ha]
            split
            · exact ⟨rfl, rfl, rfl, rfl⟩
            case isFalse hmin =>
              split
              · exact ⟨rfl, rfl, rfl, rfl⟩
              case isFalse hover =>
                exact absurd hbad (by push_neg; exact ⟨le_of_not_lt hmin,
                  le_of_not_lt hover⟩)

/-- Witness for C4 (amended): a request for 60 with available balance 50 is
rejected with no state change and no gateway call. -/
theorem withdraw_amount_validation_witness :
    (60 : ℚ) ≠ 0 ∧
    ((withdraw dbAvail 7 (some 60) "W1" gwOkSample).db = dbAvail ∧
      (withdraw dbAvail 7 (some 60) "W1" gwOkSample).gatewayCalled = false ∧
      (withdraw dbAvail 7 (some 60) "W1" gwOkSample).resp.httpStatus = 400 ∧
      (withdraw dbAvail 7 (some 60) "W1" gwOkSample).resp.success = false) := by
  have hbal : calculateBalance dbAvail 7 = ⟨50, 0, 0, 50⟩ := by
    unfold calculateBalance eligibleOrderIds
    norm_num [dbAvail, sampleOrder, sampleReview, samplePayment, List.filter,
      List.any, sumAmounts, round2, round_eq]
  refine ⟨by norm_num, withdraw_amount_validation dbAvail 7 60 "W1" gwOkSample
    (by norm_num) ?_⟩
  rw [hbal]
  norm_num

theorem withdrawCommit_gatewayCalled (db : DB) (row : Withdrawal)
    (gw : TransferResult) : (withdrawCommit db row gw).gatewayCalled = true := by
  unfold withdrawCommit
  rcases gw with r | e
  · rfl
  · dsimp only
    split <;> rfl

/-- Either `withdraw` rejects before the gateway, or it commits a fresh row
and runs the post-commit phase. -/
theorem withdraw_err_cases (db : DB) (eid : Nat) (a : Option ℚ) (obn : String)
    (e : ApiErr) :
    ((withdraw db eid a obn (TransferResult.err e)).db = db ∧
      (withdraw db eid a obn (TransferResult.err e)).gatewayCalled = false) ∨
    (∃ row : Withdrawal,
      (∀ w ∈ db.withdrawals, w.id ≠ row.id) ∧
      withdraw db eid a obn (TransferResult.err e) =
        withdrawCommit db row (TransferResult.err e)) := by
  unfold withdraw
  split
  · left; exact ⟨rfl, rfl⟩
  · split
    · left; exact ⟨rfl, rfl⟩
    case h_2 user huser =>
      cases hopen : user.openid with
      | none => left; simp [hopen]
      | some openid =>
        simp only [hopen]
        split
        · left; exact ⟨rfl, rfl⟩
        case h_2 cert hcert =>
          cases hreal : cert.real_name with
          | none => left; simp [hreal]
          | some realName =>
            simp only [hreal]
            split
            · left; exact ⟨rfl, rfl⟩
            · split
              · left; exact ⟨rfl, rfl⟩
              · right
                exact ⟨_, (fun w hw => by
                  simpa using freshWId_not_mem db w hw), rfl⟩

/-- Appending a non-processing row does not change `lockedAmount`. -/
theorem lockedAmount_append_nonprocessing (db : DB) (r : Withdrawal) (eid : Nat)
    (hr : r.status ≠ WStatus.processing) :
    (calculateBalance { db with withdrawals := db.withdrawals ++ [r] }
      eid).lockedAmount = (calculateBalance db eid).lockedAmount := by
  unfold calculateBalance eligibleOrderIds
  simp only [List.filter_append]
  have h0 : List.filter (fun w =>
      decide (w.electrician_id = eid ∧ w.status = WStatus.processing)) [r] = [] := by
    have hd : decide (r.electrician_id = eid ∧ r.status = WStatus.processing)
        = false := decide_eq_false (by rintro ⟨_, h⟩; exact hr h)
    simp only [List.filter, hd]
  rw [h0]
  simp

/-- C5: when a Withdrawal has been committed as pending and the gateway
transfer call throws, the row transitions to status failed with a recorded
reason, so `lockedAmount` excludes it afterwards; a rate-limit gateway error
(HTTP 429 or code FREQUENCY_LIMIT_EXCEED) is surfaced as a 429 response with
machine-readable code RATE_LIMIT_EXCEEDED, while any other gateway error is
surfaced as a generic 500 without that code. -/
theorem withdraw_gateway_failure (db : DB) (eid : Nat) (a : Option ℚ)
    (obn : String) (e : ApiErr)
    (hcalled : (withdraw db eid a obn (TransferResult.err e)).gatewayCalled
      = true) :
    (∃ w : Withdrawal,
      (withdraw db eid a obn (TransferResult.err e)).db.withdrawals.getLast?
        = some w ∧
      w.status = WStatus.failed ∧ w.fail_reason.isSome = true) ∧
    (calculateBalance (withdraw db eid a obn (TransferResult.err e)).db
        eid).lockedAmount = (calculateBalance db eid).lockedAmount ∧
    (if e.status = some 429 ∨ e.code = some "FREQUENCY_LIMIT_EXCEED" then
      (withdraw db eid a obn (TransferResult.err e)).resp.httpStatus = 429 ∧
      (withdraw db eid a obn (TransferResult.err e)).resp.code
        = some "RATE_LIMIT_EXCEEDED"
    else
      (withdraw db eid a obn (TransferResult.err e)).resp.httpStatus = 500 ∧
      (withdraw db eid a obn (TransferResult.err e)).resp.code = none) := by
  rcases withdraw_err_cases db eid a obn e with ⟨_, hgc⟩ | ⟨row, hfresh, heq⟩
  · rw [hcalled] at hgc; cases hgc
  · by_cases hrate : e.status = some 429 ∨ e.code = some "FREQUENCY_LIMIT_EXCEED"
    · rw [heq, withdrawCommit_err_rate db row e hfresh hrate]
      refine ⟨⟨_, List.getLast?_concat _, rfl, rfl⟩, ?_, ?_⟩
      · exact lockedAmount_append_nonprocessing db _ eid (by intro h; cases h)
      · rw [if_pos hrate]; exact ⟨rfl, rfl⟩
    · rw [heq, withdrawCommit_err_other db row e hfresh hrate]
      refine ⟨⟨_, List.getLast?_concat _, rfl, rfl⟩, ?_, ?_⟩
      · exact lockedAmount_append_nonprocessing db _ eid (by intro h; cases h)
      · rw [if_neg hrate]; exact ⟨rfl, rfl⟩

/-- Witness for C5: a rate-limited gateway failure after commit marks the
fresh row failed with a reason, leaves lockedAmount unchanged, and surfaces
a 429 with code RATE_LIMIT_EXCEEDED. -/
theorem withdraw_gateway_failure_witness :
    (withdraw dbAvail 7 (some 5) "W1"
      (TransferResult.err ⟨some 429, none, "busy"⟩)).gatewayCalled = true ∧
    ((∃ w : Withdrawal,
      (withdraw dbAvail 7 (some 5) "W1"
        (TransferResult.err ⟨some 429, none, "busy"⟩)).db.withdrawals.getLast?
        = some w ∧
      w.status = WStatus.failed ∧ w.fail_reason.isSome = true) ∧
    (calculateBalance (withdraw dbAvail 7 (some 5) "W1"
        (TransferResult.err ⟨some 429, none, "busy"⟩)).db 7).lockedAmount
      = (calculateBalance dbAvail 7).lockedAmount ∧
    (if (⟨some 429, none, "busy"⟩ : ApiErr).status = some 429 ∨
        (⟨some 429, none, "busy"⟩ : ApiErr).code = some "FREQUENCY_LIMIT_EXCEED" then
      (withdraw dbAvail 7 (some 5) "W1"
        (TransferResult.err ⟨some 429, none, "busy"⟩)).resp.httpStatus = 429 ∧
      (withdraw dbAvail 7 (some 5) "W1"
        (TransferResult.err ⟨some 429, none, "busy"⟩)).resp.code
        = some "RATE_LIMIT_EXCEEDED"
    else
      (withdraw dbAvail 7 (some 5) "W1"
        (TransferResult.err ⟨some 429, none, "busy"⟩)).resp.httpStatus = 500 ∧
      (withdraw dbAvail 7 (some 5) "W1"
        (TransferResult.err ⟨some 429, none, "busy"⟩)).resp.code = none)) := by
  have hbal : calculateBalance dbAvail 7 = ⟨50, 0, 0, 50⟩ := by
    unfold calculateBalance eligibleOrderIds
    norm_num [dbAvail, sampleOrder, sampleReview, samplePayment, List.filter,
      List.any, sumAmounts, round2, round_eq]
  have heval : withdraw dbAvail 7 (some 5) "W1"
      (TransferResult.err ⟨some 429, none, "busy"⟩) =
      withdrawCommit dbAvail
        { id := freshWId dbAvail
          electrician_id := 7
          amount := 5
          status := WStatus.pending
          out_batch_no := "W1"
          transfer_bill_no := none
          openid := "oid7"
          real_name := some "张三"
          total_income_snapshot := 50
          withdrawn_snapshot := 0
          available_balance_snapshot := 50
          fail_reason := none
          completed_at := none
          package_info := none } (TransferResult.err ⟨some 429, none, "busy"⟩) := by
    unfold withdraw
    simp only [hbal]
    norm_num [dbAvail, sampleUser, sampleCert, List.any, List.find?, freshWId]
  have hcalled : (withdraw dbAvail 7 (some 5) "W1"
      (TransferResult.err ⟨some 429, none, "busy"⟩)).gatewayCalled = true := by
    rw [heval]; exact withdrawCommit_gatewayCalled _ _ _
  exact ⟨hcalled,
    withdraw_gateway_failure dbAvail 7 (some 5) "W1" ⟨some 429, none, "busy"⟩ hcalled⟩

theorem payments_updP_success (db : DB) (c : String) (f : Payment → Payment)
    (hf : ∀ x, (f x).status = PStatus.success ∧ (f x).paid_at.isSome = true) :
    ∀ q ∈ (updPWhere db (fun x => decide (x.out_trade_no = c)) f).payments,
      q.out_trade_no = c → q.status = PStatus.success ∧ q.paid_at.isSome = true := by
  intro q hq hqc
  simp only [updPWhere] at hq
  rcases mem_map_upd hq with ⟨a, _, _, rfl⟩ | ⟨a, _, hpa, rfl⟩
  · exact hf a
  · exact absurd hqc (by simpa using hpa)

theorem orders_updO_status (db : DB) (oid : Nat) (f : Order → Order) (s : OStatus)
    (hf : ∀ x, (f x).status = s) :
    ∀ o ∈ (updOWhere db (fun x => decide (x.id = oid)) f).orders,
      o.id = oid → o.status = s := by
  intro o ho hid
  simp only [updOWhere] at ho
  rcases mem_map_upd ho with ⟨a, _, _, rfl⟩ | ⟨a, _, hpa, rfl⟩
  · exact hf a
  · exact absurd hid (by simpa using hpa)

theorem transitionRepair_orders (db : DB) (o : Order) (op : Nat) (now : Nat) :
    (transitionRepairPaymentSuccess db o op now).orders =
      (updOWhere db (fun x => decide (x.id = o.id))
        (fun x => { x with
          status := OStatus.in_progress
          repair_paid_at := some now })).orders := by
  unfold transitionRepairPaymentSuccess
  cases o.electrician_id <;> simp [addLog, addMsg]

theorem transitionRepair_payments (db : DB) (o : Order) (op : Nat) (now : Nat) :
    (transitionRepairPaymentSuccess db o op now).payments = db.payments := by
  unfold transitionRepairPaymentSuccess
  cases o.electrician_id <;> simp [addLog, addMsg, updOWhere]

theorem transitionRepair_logs (db : DB) (o : Order) (op : Nat) (now : Nat) :
    (transitionRepairPaymentSuccess db o op now).statusLogs.length
      = db.statusLogs.length + 1 := by
  unfold transitionRepairPaymentSuccess
  cases o.electrician_id <;> simp [addLog, addMsg, updOWhere]

theorem applyPrepay_payments (db : DB) (o : Order) (now : Nat) :
    (applyPrepaySuccess db o now).payments = db.payments := by
  simp [applyPrepaySuccess, addLog, addMsg, updOWhere]

theorem applyPrepay_orders (db : DB) (o : Order) (now : Nat) :
    (applyPrepaySuccess db o now).orders =
      (updOWhere db (fun x => decide (x.id = o.id))
        (fun x => { x with
          status := OStatus.pending
          prepaid_at := some now })).orders := by
  simp [applyPrepaySuccess, addLog, addMsg]

theorem applyPrepay_logs (db : DB) (o : Order) (now : Nat) :
    (applyPrepaySuccess db o now).statusLogs.length
      = db.statusLogs.length + 1 := by
  simp [applyPrepaySuccess, addLog, addMsg, updOWhere]

/-- C10: for every payment webhook that passes verification and whose
merchant order number matches a Payment not already successful, the handler
marks the Payment success, stamps `paid_at`, and fires the order-state
transition (prepay → order `pending`, repair → order `in_progress`) with its
status-log side effect — with no condition whatsoever on the decrypted
`trade_state`, which is universally quantified here. -/
theorem wechatNotify_ignores_trade_state (db : DB) (n : NotifyResult)
    (now : Nat) (p : Payment)
    (hn : n.success = true)
    (hfind : db.payments.find? (fun q =>
      decide (q.out_trade_no = n.out_trade_no)) = some p)
    (hp : p.status ≠ PStatus.success) :
    (wechatNotify db n now).resp = GwResp.ok ∧
    (∀ q ∈ (wechatNotify db n now).db.payments, q.out_trade_no = n.out_trade_no →
      q.status = PStatus.success ∧ q.paid_at.isSome = true) ∧
    (∀ o ∈ (wechatNotify db n now).db.orders, o.id = p.order_id →
      o.status = (if p.type = PayType.prepay then OStatus.pending
        else OStatus.in_progress)) ∧
    (∀ o, db.orders.find? (fun x => decide (x.id = p.order_id)) = some o →
      (wechatNotify db n now).db.statusLogs.length = db.statusLogs.length + 1) := by
  have hP : ∀ q ∈ (updPWhere db (fun x =>
      decide (x.out_trade_no = n.out_trade_no))
      (fun x => { x with
        status := PStatus.success
        transaction_id := some n.transaction_id
        paid_at := some (n.success_time.getD now) })).payments,
      q.out_trade_no = n.out_trade_no →
      q.status = PStatus.success ∧ q.paid_at.isSome = true :=
    payments_updP_success db n.out_trade_no _ (fun x => ⟨rfl, rfl⟩)
  unfold wechatNotify
  rw [hn, hfind]
  simp only [Bool.true_eq_false, if_false, if_neg hp]
  split
  case h_1 hnone =>
    dsimp only
    refine ⟨rfl, hP, ?_, ?_⟩
    · intro o ho hid
      exfalso
      simp only [updPWhere] at ho
      have h2 := List.find?_eq_none.mp hnone o ho
      simp at h2
      exact h2 hid
    · intro o ho
      rw [hnone] at ho
      cases ho
  case h_2 o hsome =>
    have hoid : o.id = p.order_id := by simpa using List.find?_some hsome
    split
    case isTrue htype =>
      dsimp only
      refine ⟨rfl, ?_, ?_, ?_⟩
      · rw [applyPrepay_payments]
        exact hP
      · intro q hq hid
        rw [applyPrepay_orders] at hq
        exact orders_updO_status _ o.id _ OStatus.pending (fun x => rfl) q hq
          (by rw [hid, hoid])
      · intro o' ho'
        rw [applyPrepay_logs]
        simp [updPWhere]
    case isFalse htype =>
      dsimp only
      refine ⟨rfl, ?_, ?_, ?_⟩
      · rw [transitionRepair_payments]
        exact hP
      · intro q hq hid
        rw [transitionRepair_orders] at hq
        exact orders_updO_status _ o.id _ OStatus.in_progress (fun x => rfl) q hq
          (by rw [hid, hoid])
      · intro o' ho'
        rw [transitionRepair_logs]
        simp [updPWhere]

/-- A pending repair Payment "P2" on order 1 awaiting the repair fee. -/
def pendingRepairPayment : Payment :=
  ⟨2, 1, 3, "P2", 100, "wechat", PayType.repair, PStatus.pending, none, none, none⟩

/-- Order 1 in state pending_repair_payment. -/
def orderRepair : Order :=
  ⟨1, "ORD1", 3, some 7, OStatus.pending_repair_payment, 100, none, none⟩

def dbPay : DB :=
  ⟨[orderRepair], [], [pendingRepairPayment], [], [sampleUser], [sampleCert],
    [], []⟩

/-- Witness for C10: a verified webhook whose decrypted trade_state is FAIL
still marks the pending repair Payment success and moves the order to
in_progress. -/
theorem wechatNotify_ignores_trade_state_witness :
    (wechatNotify dbPay ⟨true, "P2", "T9", "FAIL", some 11⟩ 11).resp
      = GwResp.ok ∧
    (∀ q ∈ (wechatNotify dbPay ⟨true, "P2", "T9", "FAIL", some 11⟩ 11).db.payments,
      q.out_trade_no = "P2" →
      q.status = PStatus.success ∧ q.paid_at.isSome = true) ∧
    (∀ o ∈ (wechatNotify dbPay ⟨true, "P2", "T9", "FAIL", some 11⟩ 11).db.orders,
      o.id = 1 →
      o.status = (if pendingRepairPayment.type = PayType.prepay
        then OStatus.pending else OStatus.in_progress)) ∧
    (∀ o, dbPay.orders.find? (fun x => decide (x.id = 1)) = some o →
      (wechatNotify dbPay ⟨true, "P2", "T9", "FAIL", some 11⟩ 11).db.statusLogs.length
        = dbPay.statusLogs.length + 1) :=
  wechatNotify_ignores_trade_state dbPay ⟨true, "P2", "T9", "FAIL", some 11⟩ 11
    pendingRepairPayment rfl
    (by simp [dbPay, pendingRepairPayment, List.find?])
    (by simp [pendingRepairPayment])

theorem payments_updP_status (db : DB) (c : String) (f : Payment → Payment)
    (s : PStatus) (hf : ∀ x, (f x).status = s) :
    ∀ q ∈ (updPWhere db (fun x => decide (x.out_trade_no = c)) f).payments,
      q.out_trade_no = c → q.status = s := by
  intro q hq hqc
  simp only [updPWhere] at hq
  rcases mem_map_upd hq with ⟨a, _, _, rfl⟩ | ⟨a, _, hpa, rfl⟩
  · exact hf a
  · exact absurd hqc (by simpa using hpa)

/-- C7 counterexample: for a pending repair Payment, the active status query
with gateway trade state SUCCESS marks the Payment success but leaves the
order in pending_repair_payment, whereas the webhook moves the same order to
in_progress — the query path does not apply the same success path as the
webhook. -/
theorem queryPayment_repair_not_webhook_path :
    ((queryPayment dbPay "P2" 3 (Except.ok ⟨true, "SUCCESS", "T1"⟩) 5).db.orders.map
      (fun o => o.status) = [OStatus.pending_repair_payment]) ∧
    ((wechatNotify dbPay ⟨true, "P2", "T1", "SUCCESS", some 5⟩ 5).db.orders.map
      (fun o => o.status) = [OStatus.in_progress]) ∧
    OStatus.pending_repair_payment ≠ OStatus.in_progress := by
  refine ⟨?_, ?_, by intro h; cases h⟩
  · simp [queryPayment, dbPay, pendingRepairPayment, orderRepair, List.find?,
      updPWhere, addLog, addMsg]
  · simp [wechatNotify, dbPay, pendingRepairPayment, orderRepair, List.find?,
      updPWhere, transitionRepairPaymentSuccess, addLog, addMsg, updOWhere]

/-- C7 (amended): for every payment status query on an owned Payment: if the
Payment is not pending it is returned as-is with no mutation; if pending and
paid through the wechat gateway, a thrown gateway query never propagates —
the last-known local state is returned unchanged; gateway trade state
SUCCESS marks the Payment success and for a prepay Payment applies the same
order transition as the webhook (order → pending), but for a repair Payment
the order rows are left completely unchanged (unlike the webhook, which
moves the order to in_progress); trade state CLOSED marks the Payment
expired with no order change. -/
theorem queryPayment_spec (db : DB) (pn : String) (uid : Nat)
    (gwq : Except ApiErr QueryOrderResult) (now : Nat) (p : Payment)
    (hfind : db.payments.find? (fun x => decide (x.out_trade_no = pn)) = some p)
    (hown : p.user_id = uid) :
    (p.status ≠ PStatus.pending →
      queryPayment db pn uid gwq now = ⟨db, 200, some p⟩) ∧
    (∀ e, p.status = PStatus.pending → p.payment_method = "wechat" →
      gwq = Except.error e →
      queryPayment db pn uid gwq now = ⟨db, 200, some p⟩) ∧
    (∀ q, p.status = PStatus.pending → p.payment_method = "wechat" →
      gwq = Except.ok q → q.success = true → q.trade_state = "SUCCESS" →
      ((∀ x ∈ (queryPayment db pn uid gwq now).db.payments,
          x.out_trade_no = pn →
          x.status = PStatus.success ∧ x.paid_at.isSome = true) ∧
        (p.type = PayType.repair →
          (queryPayment db pn uid gwq now).db.orders = db.orders) ∧
        (p.type = PayType.prepay →
          ∀ o ∈ (queryPayment db pn uid gwq now).db.orders,
            o.id = p.order_id → o.status = OStatus.pending) ∧
        (queryPayment db pn uid gwq now).httpStatus = 200)) ∧
    (∀ q, p.status = PStatus.pending → p.payment_method = "wechat" →
      gwq = Except.ok q → q.success = true → q.trade_state = "CLOSED" →
      ((∀ x ∈ (queryPayment db pn uid gwq now).db.payments,
          x.out_trade_no = pn → x.status = PStatus.expired) ∧
        (queryPayment db pn uid gwq now).db.orders = db.orders ∧
        (queryPayment db pn uid gwq now).httpStatus = 200)) := by
  have hown' : ¬(p.user_id ≠ uid) := fun h => h hown
  refine ⟨?_, ?_, ?_, ?_⟩
  · intro hterm
    unfold queryPayment
    rw [hfind]
    dsimp only
    rw [if_neg hown', if_neg (fun hc => hterm hc.1)]
  · intro e h1 h2 hgw
    subst hgw
    unfold queryPayment
    rw [hfind]
    dsimp only
    rw [if_neg hown', if_pos ⟨h1, h2⟩]
  · intro q h1 h2 hgw hqs hts
    subst hgw
    unfold queryPayment
    rw [hfind]
    dsimp only
    rw [if_neg hown', if_pos ⟨h1, h2⟩]
    rw [if_pos ⟨hqs, hts⟩]
    have hP := payments_updP_success db pn
      (fun x => { x with
        status := PStatus.success
        transaction_id := some q.transaction_id
        paid_at := some now }) (fun x => ⟨rfl, rfl⟩)
    split
    case h_1 hnone =>
      refine ⟨hP, fun _ => rfl, ?_, rfl⟩
      intro _ o ho hid
      exfalso
      simp only [updPWhere] at ho
      have h2' := List.find?_eq_none.mp hnone o ho
      simp at h2'
      exact h2' hid
    case h_2 o hsome =>
      have hoid : o.id = p.order_id := by simpa using List.find?_some hsome
      split
      case isTrue htype =>
        refine ⟨?_, ?_, ?_, rfl⟩
        · intro x hx hxc
          rw [applyPrepay_payments] at hx
          exact hP x hx hxc
        · intro hrep
          rw [htype] at hrep
          cases hrep
        · intro _ o' ho' hid
          rw [applyPrepay_orders] at ho'
          exact orders_updO_status _ o.id _ OStatus.pending (fun x => rfl) o' ho'
            (by rw [hid, hoid])
      case isFalse htype =>
        refine ⟨?_, ?_, ?_, rfl⟩
        · intro x hx hxc
          simp only [addLog, addMsg] at hx
          exact hP x hx hxc
        · intro _
          simp [addLog, addMsg, updPWhere]
        · intro hpre
          exact absurd hpre htype
  · intro q h1 h2 hgw hqs hts
    subst hgw
    unfold queryPayment
    rw [hfind]
    dsimp only
    rw [if_neg hown', if_pos ⟨h1, h2⟩]
    rw [if_neg (fun hc => by rw [hts] at hc; simp at hc), if_pos ⟨hqs, hts⟩]
    refine ⟨?_, by simp [updPWhere], rfl⟩
    exact payments_updP_status db pn _ PStatus.expired (fun x => rfl)

/-- Witness for C7 (amended), on the pending repair Payment "P2": the SUCCESS
query path marks the Payment success yet leaves the orders untouched, and a
thrown gateway query returns the local state unchanged. -/
theorem queryPayment_spec_witness :
    ((∀ x ∈ (queryPayment dbPay "P2" 3
        (Except.ok ⟨true, "SUCCESS", "T1"⟩) 5).db.payments,
      x.out_trade_no = "P2" →
      x.status = PStatus.success ∧ x.paid_at.isSome = true) ∧
    (queryPayment dbPay "P2" 3
      (Except.ok ⟨true, "SUCCESS", "T1"⟩) 5).db.orders = dbPay.orders) ∧
    queryPayment dbPay "P2" 3 (Except.error ⟨none, none, "down"⟩) 5
      = ⟨dbPay, 200, some pendingRepairPayment⟩ := by
  have hfind : dbPay.payments.find? (fun x => decide (x.out_trade_no = "P2"))
      = some pendingRepairPayment := by
    simp [dbPay, pendingRepairPayment, List.find?]
  have h1 := queryPayment_spec dbPay "P2" 3
    (Except.ok ⟨true, "SUCCESS", "T1"⟩) 5 pendingRepairPayment hfind rfl
  have h2 := queryPayment_spec dbPay "P2" 3
    (Except.error ⟨none, none, "down"⟩) 5 pendingRepairPayment hfind rfl
  have h3 := h1.2.2.1 ⟨true, "SUCCESS", "T1"⟩ rfl rfl rfl rfl rfl
  exact ⟨⟨h3.1, h3.2.1 rfl⟩, h2.2.1 ⟨none, none, "down"⟩ rfl rfl rfl⟩

theorem updW_status_by_id (db : DB) (wid : Nat) (f : Withdrawal → Withdrawal)
    (s : WStatus) (hf : ∀ x, (f x).status = s) :
    ∀ x ∈ (updWWhere db (fun y => decide (y.id = wid)) f).withdrawals,
      x.id = wid → x.status = s := by
  intro x hx hid
  simp only [updWWhere] at hx
  rcases mem_map_upd hx with ⟨a, _, _, rfl⟩ | ⟨a, _, hpa, rfl⟩
  · exact hf a
  · exact absurd hid (by simpa using hpa)

theorem updW_status_by_batch (db : DB) (b : String) (f : Withdrawal → Withdrawal)
    (s : WStatus) (hf : ∀ x, (f x).status = s) :
    ∀ x ∈ (updWWhere db (fun y => decide (y.out_batch_no = b)) f).withdrawals,
      x.out_batch_no = b → x.status = s := by
  intro x hx hid
  simp only [updWWhere] at hx
  rcases mem_map_upd hx with ⟨a, _, _, rfl⟩ | ⟨a, _, hpa, rfl⟩
  · exact hf a
  · exact absurd hid (by simpa using hpa)

/-- A processing Withdrawal with batch number "W1" for electrician 7. -/
def wProcW1 : Withdrawal :=
  ⟨3, 7, 5, WStatus.processing, "W1", some "TB1", "oid7", some "张三",
    0, 0, 0, none, none, none⟩

def dbCb : DB := ⟨[], [], [], [wProcW1], [sampleUser], [sampleCert], [], []⟩

/-- C6 counterexample: the withdrawal webhook handler (direct-update
revision, the cited code) maps gateway state CANCELLED to local status
failed, not cancelled. -/
theorem withdrawalCallback_cancelled_becomes_failed :
    ((withdrawalCallbackDirect dbCb true ⟨"W1", some "CANCELLED", none, none⟩
      8).db.withdrawals.map (fun w => w.status) = [WStatus.failed]) ∧
    WStatus.failed ≠ WStatus.cancelled := by
  refine ⟨?_, by intro h; cases h⟩
  simp [withdrawalCallbackDirect, dbCb, wProcW1, updWWhere, Option.orElse]

/-- C6 (amended): for a non-terminal Withdrawal, the status-query path maps
gateway state SUCCESS→success, FAIL→failed, CANCELLED→cancelled and makes no
local change for any other state (including the in-flight PROCESSING and
WAIT_USER_CONFIRM); the webhook path maps SUCCESS→success but maps both FAIL
and CANCELLED to failed, and makes no local change for any other state. -/
theorem withdrawal_state_mapping (db : DB) (eid : Nat) (obn : String)
    (now : Nat) (w : Withdrawal)
    (hfind : db.withdrawals.find? (fun x =>
      decide (x.electrician_id = eid ∧ x.out_batch_no = obn)) = some w)
    (hnon : ¬(w.status = WStatus.success ∨ w.status = WStatus.failed ∨
      w.status = WStatus.cancelled)) :
    (∀ q : TransferQueryResult, q.state = "SUCCESS" →
      ∀ x ∈ (queryWithdrawalStatus db eid obn (Except.ok q) now).db.withdrawals,
        x.id = w.id → x.status = WStatus.success) ∧
    (∀ q : TransferQueryResult, q.state = "FAIL" →
      ∀ x ∈ (queryWithdrawalStatus db eid obn (Except.ok q) now).db.withdrawals,
        x.id = w.id → x.status = WStatus.failed) ∧
    (∀ q : TransferQueryResult, q.state = "CANCELLED" →
      ∀ x ∈ (queryWithdrawalStatus db eid obn (Except.ok q) now).db.withdrawals,
        x.id = w.id → x.status = WStatus.cancelled) ∧
    (∀ q : TransferQueryResult, q.state ≠ "SUCCESS" → q.state ≠ "FAIL" →
      q.state ≠ "CANCELLED" →
      (queryWithdrawalStatus db eid obn (Except.ok q) now).db = db) ∧
    (∀ (cdb : DB) (d : TransferNotifyData) (t : Nat),
      d.state.orElse (fun _ => d.transfer_state) = some "SUCCESS" →
      ∀ x ∈ (withdrawalCallbackDirect cdb true d t).db.withdrawals,
        x.out_batch_no = d.out_bill_no → x.status = WStatus.success) ∧
    (∀ (cdb : DB) (d : TransferNotifyData) (t : Nat),
      (d.state.orElse (fun _ => d.transfer_state) = some "FAIL" ∨
        d.state.orElse (fun _ => d.transfer_state) = some "CANCELLED") →
      ∀ x ∈ (withdrawalCallbackDirect cdb true d t).db.withdrawals,
        x.out_batch_no = d.out_bill_no → x.status = WStatus.failed) ∧
    (∀ (cdb : DB) (d : TransferNotifyData) (t : Nat),
      d.state.orElse (fun _ => d.transfer_state) ≠ some "SUCCESS" →
      d.state.orElse (fun _ => d.transfer_state) ≠ some "FAIL" →
      d.state.orElse (fun _ => d.transfer_state) ≠ some "CANCELLED" →
      (withdrawalCallbackDirect cdb true d t).db = cdb) := by
  refine ⟨?_, ?_, ?_, ?_, ?_, ?_, ?_⟩
  · intro q hq
    unfold queryWithdrawalStatus
    rw [hfind]
    dsimp only
    rw [if_neg hnon, if_pos hq]
    exact updW_status_by_id db w.id _ WStatus.success (fun x => rfl)
  · intro q hq
    unfold queryWithdrawalStatus
    rw [hfind]
    dsimp only
    rw [if_neg hnon, if_neg (by rw [hq]; simp), if_pos hq]
    exact updW_status_by_id db w.id _ WStatus.failed (fun x => rfl)
  · intro q hq
    unfold queryWithdrawalStatus
    rw [hfind]
    dsimp only
    rw [if_neg hnon, if_neg (by rw [hq]; simp), if_neg (by rw [hq]; simp),
      if_pos hq]
    exact updW_status_by_id db w.id _ WStatus.cancelled (fun x => rfl)
  · intro q h1 h2 h3
    unfold queryWithdrawalStatus
    rw [hfind]
    dsimp only
    rw [if_neg hnon, if_neg h1, if_neg h2, if_neg h3]
  · intro cdb d t hd
    unfold withdrawalCallbackDirect
    dsimp only
    rw [if_pos hd]
    exact updW_status_by_batch cdb d.out_bill_no _ WStatus.success (fun x => rfl)
  · intro cdb d t hd
    have hs : d.state.orElse (fun _ => d.transfer_state) ≠ some "SUCCESS" := by
      rcases hd with hd | hd <;> rw [hd] <;> simp
    unfold withdrawalCallbackDirect
    dsimp only
    rw [if_neg hs, if_pos hd]
    exact updW_status_by_batch cdb d.out_bill_no _ WStatus.failed (fun x => rfl)
  · intro cdb d t h1 h2 h3
    have hfc : ¬(d.state.orElse (fun _ => d.transfer_state) = some "FAIL" ∨
        d.state.orElse (fun _ => d.transfer_state) = some "CANCELLED") := by
      rintro (h | h)
      · exact h2 h
      · exact h3 h
    unfold withdrawalCallbackDirect
    dsimp only
    rw [if_neg h1, if_neg hfc]
    rfl

/-- Witness for C6 (amended): on the processing Withdrawal "W1", the query
path maps CANCELLED to cancelled while the webhook path maps the same
CANCELLED notification to failed. -/
theorem withdrawal_state_mapping_witness :
    (∀ x ∈ (queryWithdrawalStatus dbCb 7 "W1"
        (Except.ok ⟨"CANCELLED", none⟩) 8).db.withdrawals,
      x.id = wProcW1.id → x.status = WStatus.cancelled) ∧
    (∀ x ∈ (withdrawalCallbackDirect dbCb true
        ⟨"W1", some "CANCELLED", none, none⟩ 8).db.withdrawals,
      x.out_batch_no = "W1" → x.status = WStatus.failed) := by
  have hfind : dbCb.withdrawals.find? (fun x =>
      decide (x.electrician_id = 7 ∧ x.out_batch_no = "W1")) = some wProcW1 := by
    simp [dbCb, wProcW1, List.find?]
  have h := withdrawal_state_mapping dbCb 7 "W1" 8 wProcW1 hfind
    (by rintro (h | h | h) <;> cases h)
  exact ⟨h.2.2.1 ⟨"CANCELLED", none⟩ rfl,
    h.2.2.2.2.2.1 dbCb ⟨"W1", some "CANCELLED", none, none⟩ 8 (Or.inr rfl)⟩

/-- C8: `cancelWithdrawal` looks the Withdrawal up by the pair
(batch number, electrician id), so when every row with that batch number
belongs to a different electrician the call answers 404 with no mutation and
no gateway call (no cross-account cancellation); and when the Withdrawal is
already terminal (success, failed or cancelled) the call returns the current
state unchanged and no gateway cancel call is issued. -/
theorem cancelWithdrawal_guards (db : DB) (eid : Nat) (obn : String)
    (gc : Except ApiErr CancelResult) (now : Nat) :
    ((∀ w ∈ db.withdrawals, w.out_batch_no = obn → w.electrician_id ≠ eid) →
      cancelWithdrawal db eid obn gc now = ⟨db, 404, none, false⟩) ∧
    (∀ w, db.withdrawals.find? (fun x =>
        decide (x.out_batch_no = obn ∧ x.electrician_id = eid)) = some w →
      (w.status = WStatus.success ∨ w.status = WStatus.failed ∨
        w.status = WStatus.cancelled) →
      cancelWithdrawal db eid obn gc now = ⟨db, 200, some w.status, false⟩) := by
  constructor
  · intro hno
    have hfind : db.withdrawals.find? (fun x =>
        decide (x.out_batch_no = obn ∧ x.electrician_id = eid)) = none := by
      rw [List.find?_eq_none]
      intro x hx
      simp only [decide_eq_true_eq, not_and]
      intro hobn
      exact hno x hx hobn
    unfold cancelWithdrawal
    rw [hfind]
  · intro w hfind hterm
    unfold cancelWithdrawal
    rw [hfind]
    dsimp only
    rw [if_pos hterm]

/-- Witness for C8: another electrician (id 8) cannot cancel withdrawal "W1"
of electrician 7, and cancelling the already-successful withdrawal "W0"
returns its current state without a gateway call. -/
theorem cancelWithdrawal_guards_witness :
    cancelWithdrawal dbCb 8 "W1" (Except.ok ⟨none, none⟩) 9 = ⟨dbCb, 404, none, false⟩ ∧
    cancelWithdrawal dbC1 7 "W0" (Except.ok ⟨none, none⟩) 9
      = ⟨dbC1, 200, some WStatus.success, false⟩ := by
  constructor
  · exact (cancelWithdrawal_guards dbCb 8 "W1" (Except.ok ⟨none, none⟩) 9).1
      (by
        intro w hw hobn
        simp only [dbCb, List.mem_cons, List.not_mem_nil, or_false] at hw
        subst hw
        intro h
        cases h)
  · have h := (cancelWithdrawal_guards dbC1 7 "W0" (Except.ok ⟨none, none⟩) 9).2
      wSuccessRow (by simp [dbC1, wSuccessRow, List.find?]) (Or.inl rfl)
    simpa [wSuccessRow] using h

/-! ### C9: the snapshot fields are immutable after creation -/

/-- The audit projection of a Withdrawal row: its id and the three balance
snapshot fields frozen at creation time. -/
def snaps (w : Withdrawal) : Nat × ℚ × ℚ × ℚ :=
  (w.id, w.total_income_snapshot, w.withdrawn_snapshot,
    w.available_balance_snapshot)

def snapsList (db : DB) : List (Nat × ℚ × ℚ × ℚ) := db.withdrawals.map snaps

theorem snapsList_updWWhere (db : DB) (p : Withdrawal → Bool)
    (f : Withdrawal → Withdrawal) (hf : ∀ w, snaps (f w) = snaps w) :
    snapsList (updWWhere db p f) = snapsList db := by
  unfold snapsList updWWhere
  dsimp only
  rw [List.map_map]
  apply List.map_congr_left
  intro a ha
  by_cases hp : p a
  · simp [Function.comp, hp, hf a]
  · simp [Function.comp, hp]

/-- C9: no operation after creation — gateway-driven status updates inside
`withdraw`, the active status query, the withdrawal webhook, or cancellation
— ever modifies the three snapshot fields of any existing Withdrawal row
(`withdraw` only appends a new row after the snapshots of the old rows). -/
theorem withdrawal_snapshots_immutable (db : DB) (eid : Nat) (a : Option ℚ)
    (obn : String) (gw : TransferResult)
    (gq : Except ApiErr TransferQueryResult) (v : Bool)
    (d : TransferNotifyData) (gc : Except ApiErr CancelResult) (now : Nat) :
    ((snapsList (withdraw db eid a obn gw).db).take db.withdrawals.length
      = snapsList db) ∧
    snapsList (queryWithdrawalStatus db eid obn gq now).db = snapsList db ∧
    snapsList (withdrawalCallbackDirect db v d now).db = snapsList db ∧
    snapsList (cancelWithdrawal db eid obn gc now).db = snapsList db := by
  have hlen : db.withdrawals.length = (snapsList db).length := by
    unfold snapsList
    rw [List.length_map]
  refine ⟨?_, ?_, ?_, ?_⟩
  · rcases withdraw_db_cases db eid a obn gw with ⟨hdb, _⟩ | ⟨_, r, hdb, _⟩
    · rw [hdb, hlen, List.take_length]
    · rw [hdb]
      have : snapsList { db with withdrawals := db.withdrawals ++ [r] }
          = snapsList db ++ [snaps r] := by
        unfold snapsList
        dsimp only
        rw [List.map_append]
        rfl
      rw [this, hlen, List.take_left]
  · unfold queryWithdrawalStatus
    split
    · rfl
    · split
      · rfl
      · rcases gq with e | q
        · rfl
        · dsimp only
          split
          · exact snapsList_updWWhere db _ _ (fun x => rfl)
          · split
            · exact snapsList_updWWhere db _ _ (fun x => rfl)
            · split
              · exact snapsList_updWWhere db _ _ (fun x => rfl)
              · rfl
  · unfold withdrawalCallbackDirect
    cases v with
    | false => rfl
    | true =>
        rw [if_neg (by simp : ¬(true = false))]
        dsimp only
        split
        · exact snapsList_updWWhere db _ _ (fun x => rfl)
        · split
          · exact snapsList_updWWhere db _ _ (fun x => rfl)
          · rfl
  · unfold cancelWithdrawal
    split
    · rfl
    · split
      · rfl
      · rcases gc with e | c
        · rfl
        · exact snapsList_updWWhere db _ _ (fun x => rfl)

end ElectricianApi
